import Mathlib

/-!
# Verification of the plane-claude-orchestrator ticket lifecycle engine

A shallow embedding of the core of `plane-claude-orchestrator`
(`src/api.py`, `src/daemon.py`, `src/completion_detector.py`,
`src/plane_client.py`) and proofs about its queue transitions, trigger
detection, retry policy and completion watcher.

Python `dict[str, T]` values are modelled as insertion-ordered association
lists (`Dict`), network and clock effects as explicit parameters, and the
tenacity retry decorator as a bounded retry combinator.
-/

set_option autoImplicit false

/-- Insertion-ordered string-keyed map, modelling a Python `dict[str, T]`.
A real Python dict never stores a key twice; the operations below agree
with Python's on such values. -/
abbrev Dict (T : Type) : Type := List (String × T)

namespace Dict

variable {T : Type}

/-- The empty dict (`{}`). -/
def empty : Dict T := []

/-- `d.get(k)` / `d[k]`: the binding of `k`, if any. -/
def lookup : Dict T → String → Option T
  | [], _ => none
  | p :: rest, key => if p.1 = key then some p.2 else lookup rest key

/-- `k in d` as a Bool. -/
def contains (d : Dict T) (k : String) : Bool := (d.lookup k).isSome

/-- `d[k] = v`: replace the binding in place if the key is present,
otherwise append at the end (Python dict assignment semantics). -/
def insert : Dict T → String → T → Dict T
  | [], k, v => [(k, v)]
  | p :: rest, k, v => if p.1 = k then (k, v) :: rest else p :: insert rest k v

/-- `del d[k]` (callers always guard on membership; on a duplicate-free
dict this removes exactly the binding of `k`). -/
def erase : Dict T → String → Dict T
  | [], _ => []
  | p :: rest, k => if p.1 = k then erase rest k else p :: erase rest k

/-- `list(d.keys())`. -/
def keys (d : Dict T) : List String := List.map Prod.fst d

/-- Number of bindings stored for key `k` (1 for a real Python dict). -/
def countKey (d : Dict T) (k : String) : Nat :=
  (List.filter (fun p => p.1 = k) d).length

end Dict

/-! ## Data model (`src/api.py`)

A ticket is the dict built in `PlaneClient.poll_for_triggers` and mutated
by `approve_ticket` (adds `session_id`, `started_at`) and
`mark_ticket_completed` (adds `summary`, `completed_at`).  Timestamps are
ISO strings in the source; a well-formed `datetime.now().isoformat()`
stamp is modelled as `Timestamp.iso t` with `t` the clock reading, and
anything `datetime.fromisoformat` would reject as `Timestamp.malformed`. -/

/-- An ISO-8601 timestamp string: either well formed (parsing to the
instant `t`) or malformed (parsing raises `ValueError`). -/
inductive Timestamp where
  | iso : Int → Timestamp
  | malformed : String → Timestamp
deriving DecidableEq, Repr

/-- `datetime.fromisoformat`: succeeds exactly on well-formed stamps. -/
def parseTimestamp : Timestamp → Option Int
  | .iso t => some t
  | .malformed _ => none

/-- Ticket record as stored in the three queues (`src/api.py` /
`poll_for_triggers` in `src/plane_client.py`). -/
structure Ticket where
  tid : String
  uuid : String
  project_id : String
  title : String
  description : String
  trigger_type : Option String
  created_at : String
  updated_at : Option String
  session_id : Option String := none
  started_at : Option Timestamp := none
  summary : Option String := none
  completed_at : Option Timestamp := none
deriving DecidableEq, Repr

/-- The three in-memory queues owned by `OrchestratorAPI`
(`self.pending_tickets`, `self.active_sessions`,
`self.completed_tickets`). -/
structure EngineState where
  pending : Dict Ticket
  active : Dict Ticket
  completed : Dict Ticket
deriving DecidableEq, Repr

/-- Fresh `OrchestratorAPI` state: all three dicts empty. -/
def initState : EngineState := ⟨Dict.empty, Dict.empty, Dict.empty⟩

/-- `ticket_id in pending_tickets`. -/
def inPending (s : EngineState) (id : String) : Bool := s.pending.contains id

/-- `ticket_id in active_sessions`. -/
def inActive (s : EngineState) (id : String) : Bool := s.active.contains id

/-- `ticket_id in completed_tickets`. -/
def inCompleted (s : EngineState) (id : String) : Bool := s.completed.contains id

/-! ## Engine operations (`src/api.py`) -/

/-- `OrchestratorAPI.add_pending_ticket` (api.py lines 343-355):
`self.pending_tickets[ticket["id"]] = ticket`, unconditionally.  The HTTP
endpoint `POST /api/test/add-ticket` calls exactly this. -/
def add_pending_ticket (s : EngineState) (t : Ticket) : EngineState :=
  { s with pending := s.pending.insert t.tid t }

/-- One admission step of `PlaneClaudeOrchestrator._poll_plane_loop`
(daemon.py lines 98-109): skip the ticket if its id is already in any of
the three queues, otherwise `add_pending_ticket`. -/
def poll_admission (s : EngineState) (t : Ticket) : EngineState :=
  if inPending s t.tid || inActive s t.tid || inCompleted s t.tid then s
  else add_pending_ticket s t

/-- Outcome of the `await self.tmux_client.create_session(...)` call in
`approve_ticket`: the call either returns session details or raises. -/
inductive CreateOutcome where
  | success
  | raiseErr
deriving DecidableEq, Repr

/-- Result of `POST /api/approve/{ticket_id}`. -/
inductive ApproveStatus where
  | ok (session_id : String)
  | notFound
  | createFailed
deriving DecidableEq, Repr

/-- What `approve_ticket` did: HTTP result, whether
`tmux_client.create_session` was invoked, and the state afterwards. -/
structure ApproveOut where
  status : ApproveStatus
  calledCreate : Bool
  state : EngineState
deriving DecidableEq, Repr

/-- `approve_ticket` (api.py lines 142-202).  `co` is the outcome of the
session-service call, `session_id` the id built from prefix, ticket id and
timestamp, `now` the clock reading used for `started_at`.
404 if the id is not pending; on a create exception nothing is mutated and
HTTP 500 is returned; on success the ticket gains `session_id` and
`started_at`, is stored in `active_sessions` and deleted from
`pending_tickets`. -/
def approve_ticket (s : EngineState) (ticket_id : String) (co : CreateOutcome)
    (session_id : String) (now : Int) : ApproveOut :=
  match s.pending.lookup ticket_id with
  | none => ⟨.notFound, false, s⟩
  | some t =>
    match co with
    | .raiseErr => ⟨.createFailed, true, s⟩
    | .success =>
      let t' := { t with session_id := some session_id,
                         started_at := some (Timestamp.iso now) }
      ⟨.ok session_id, true,
        { s with active := s.active.insert ticket_id t',
                 pending := s.pending.erase ticket_id }⟩

/-- Effects of `mark_ticket_completed`: whether the Active→Completed
transition fired, and the duration (in clock units) observed to the
`session_duration` metric, when both timestamps parsed. -/
structure CompleteOut where
  transitioned : Bool
  duration : Option Int
  state : EngineState
deriving DecidableEq, Repr

/-- `OrchestratorAPI.mark_ticket_completed` (api.py lines 357-387).
If the id is not active, nothing happens.  Otherwise the ticket is
stamped with `summary` and `completed_at = now`, moved to
`completed_tickets`, removed from `active_sessions`; then, if a
`started_at` stamp exists and both stamps parse, the duration
`completed_at - started_at` is observed; a missing or malformed stamp
only logs a warning. -/
def mark_ticket_completed (s : EngineState) (ticket_id : String)
    (summary : String) (now : Int) : CompleteOut :=
  match s.active.lookup ticket_id with
  | none => ⟨false, none, s⟩
  | some t =>
    let t' := { t with summary := some summary,
                       completed_at := some (Timestamp.iso now) }
    let s' := { s with completed := s.completed.insert ticket_id t',
                       active := s.active.erase ticket_id }
    let dur : Option Int :=
      match t'.started_at with
      | none => none
      | some st =>
        match parseTimestamp st, parseTimestamp (Timestamp.iso now) with
        | some a, some b => some (b - a)
        | _, _ => none
    ⟨true, dur, s'⟩

/-- Outcome of one remote call made during `update_plane_ticket`:
the Python coroutine returns `True`, returns `False`, or raises. -/
inductive CallResult where
  | ok
  | failed
  | raised
deriving DecidableEq, Repr

/-- HTTP result of `POST /api/update-plane/{ticket_id}`. -/
inductive PublishStatus where
  | notFound
  | commentFailed
  | unexpectedError
  | updated (state_updated : Bool)
deriving DecidableEq, Repr

/-- `update_plane_ticket` (api.py lines 204-298).  `commentRes` is the
outcome of `plane_client.add_issue_comment` (after its internal retries),
`stateIdOpt` the reply of `get_in_progress_state_id` (which swallows its
client errors and returns `None` rather than raising), `stateRes` the
outcome of `plane_client.update_issue_state`.
404 if the id is not completed.  A `False` comment result raises HTTP 500
with the ticket retained; a comment exception is caught by the generic
handler, also HTTP 500 with the ticket retained.  After a confirmed
comment success the state update is attempted only when a state id was
found, its failure or exception is merely logged, and the ticket is
deleted from `completed_tickets`; the response's `state_updated` flag is
`in_progress_state_id is not None`. -/
def update_plane_ticket (s : EngineState) (ticket_id : String)
    (commentRes : CallResult) (stateIdOpt : Option String)
    (stateRes : CallResult) : PublishStatus × EngineState :=
  match s.completed.lookup ticket_id with
  | none => (.notFound, s)
  | some _ =>
    match commentRes with
    | .failed => (.commentFailed, s)
    | .raised => (.unexpectedError, s)
    | .ok =>
      (.updated stateIdOpt.isSome,
       { s with completed := s.completed.erase ticket_id })

/-- `delete_ticket` (api.py lines 300-323): remove the id from
`pending_tickets` if present and from `completed_tickets` if present
(the first deletion touches only `pending_tickets`, so the second
membership test is unaffected by it); 404 when in neither.  Returns
whether anything was deleted. -/
def delete_ticket (s : EngineState) (ticket_id : String) : Bool × EngineState :=
  (inPending s ticket_id || inCompleted s ticket_id,
   { s with
       pending :=
         if inPending s ticket_id then s.pending.erase ticket_id else s.pending,
       completed :=
         if inCompleted s ticket_id then s.completed.erase ticket_id
         else s.completed })

/-! ## Trigger detection (`src/plane_client.py`, `_check_trigger`) -/

/-- `self._last_poll_state[issue_id]`: the per-issue snapshot dict
`{"state": ..., "updated_at": ...}` (plane_client.py lines 182-185).
Both values come from `issue.get(...)` and may be `None`. -/
structure PollSnapshot where
  state : Option String
  updated_at : Option String
deriving DecidableEq, Repr

/-- The fields of a polled issue that `_check_trigger` reads:
`issue.get("state")`, `issue.get("updated_at")` and
`issue.get("state_detail", {}).get("group", "")`. -/
structure IssueData where
  state : Option String
  updated_at : Option String
  state_group : String
deriving DecidableEq, Repr

/-- `PlaneClient._check_trigger` (plane_client.py lines 167-208) for one
issue.  `snap` is the stored snapshot (`none` when the issue is seen for
the first time; a stored snapshot is a non-empty dict, hence truthy).
Returns the trigger type (or `none`) together with the snapshot stored
afterwards.  On a state difference only the snapshot's `state` field is
written; on an `updated_at` difference only its `updated_at` field. -/
def check_trigger (snap : Option PollSnapshot) (issue : IssueData) :
    Option String × PollSnapshot :=
  match snap with
  | none =>
    let recorded : PollSnapshot := ⟨issue.state, issue.updated_at⟩
    let g := issue.state_group.toLower
    if g = "started" ∨ g = "unstarted" then (some "new_ticket", recorded)
    else (none, recorded)
  | some last =>
    if issue.state ≠ last.state then
      (some "status_change", { last with state := issue.state })
    else if issue.updated_at ≠ last.updated_at then
      (some "comment_added", { last with updated_at := issue.updated_at })
    else (none, last)

/-! ## Retrying write operations (`src/plane_client.py`)

`add_issue_comment` and `update_issue_state` are wrapped in
`@retry(retry=retry_if_exception_type((aiohttp.ClientError,
aiohttp.ServerTimeoutError)), stop=stop_after_attempt(3),
wait=wait_exponential(multiplier=1, min=2, max=10), reraise=True)`.
Every exception either body raises is an `aiohttp.ClientError` (the 5xx
branch raises one explicitly, the network branch re-raises one), so every
raise is retryable.  One attempt is modelled by what the wire returned:
an HTTP status or a network error. -/

/-- What one HTTP attempt observed on the wire. -/
inductive HttpAttempt where
  | response (status : Nat)
  | netError
deriving DecidableEq, Repr

/-- One attempt of the `add_issue_comment` body (plane_client.py lines
241-264): 200/201 returns `True`; status ≥ 500 raises `ClientError`;
any other status returns `False`; a network `ClientError` is re-raised.
`Except.error` marks a raised (retryable) exception. -/
def commentAttempt : HttpAttempt → Except Unit Bool
  | .response n =>
      if n = 200 ∨ n = 201 then .ok true
      else if 500 ≤ n then .error ()
      else .ok false
  | .netError => .error ()

/-- One attempt of the `update_issue_state` body (plane_client.py lines
295-318): 200 returns `True`; status ≥ 500 raises; any other status
returns `False`; a network `ClientError` is re-raised. -/
def stateAttempt : HttpAttempt → Except Unit Bool
  | .response n =>
      if n = 200 then .ok true
      else if 500 ≤ n then .error ()
      else .ok false
  | .netError => .error ()

/-- An attempt outcome the decorator retries: a raised network error or
an HTTP 5xx response (whose branch raises `ClientError`). -/
def isTransient : HttpAttempt → Bool
  | .netError => true
  | .response n => decide (500 ≤ n)

/-- tenacity `wait_exponential(multiplier, min, max)` after completed
attempt number `n`: `max(max(0, min), min(multiplier * 2^n, max))`. -/
def waitExponential (multiplier minW maxW n : Nat) : Nat :=
  max (max 0 minW) (min (multiplier * 2 ^ n) maxW)

/-- Trace of one decorated call: final result (`Except.error` = the last
exception re-raised after the budget, per `reraise=True`), the number of
attempts made, and the waits slept between attempts, in order. -/
structure RetryTrace where
  result : Except Unit Bool
  attempts : Nat
  waits : List Nat
deriving Repr

/-- tenacity retry loop: run attempt `n` (1-based); a successful return
stops; a retryable exception sleeps `wait_exponential(1, 2, 10)` of the
attempt number and retries while `n < maxAttempts`
(`stop_after_attempt`), else re-raises.  `fuel` only bounds the
recursion; it is set so that it never runs out. -/
def retryGo (body : Nat → Except Unit Bool) (maxAttempts : Nat) :
    Nat → Nat → List Nat → RetryTrace
  | 0, n, ws => ⟨.error (), n, ws⟩
  | fuel + 1, n, ws =>
    match body n with
    | .ok b => ⟨.ok b, n, ws⟩
    | .error e =>
      if n < maxAttempts then
        retryGo body maxAttempts fuel (n + 1) (ws ++ [waitExponential 1 2 10 n])
      else ⟨.error e, n, ws⟩

/-- `PlaneClient.add_issue_comment` under its retry decorator, as a
function of the wire behaviour of each attempt. -/
def add_issue_comment (wire : Nat → HttpAttempt) : RetryTrace :=
  retryGo (fun n => commentAttempt (wire n)) 3 3 1 []

/-- `PlaneClient.update_issue_state` under its retry decorator, as a
function of the wire behaviour of each attempt. -/
def update_issue_state (wire : Nat → HttpAttempt) : RetryTrace :=
  retryGo (fun n => stateAttempt (wire n)) 3 3 1 []

/-! ## Completion watcher (`src/completion_detector.py`, `src/daemon.py`)

The filesystem of completion artifacts is a map from ticket id to the
text of `/tmp/completion-{ticket_id}.txt` (`none` = file absent).  One
tick iterates over a snapshot of `list(active_sessions.keys())`, checks
each file, and processes it.  `completeCalls` records each
`mark_ticket_completed(ticket_id, summary)` invocation in order. -/

/-- Python `str.strip()`: remove leading and trailing whitespace.
Modelled on the character list (`String.trim` itself is defined by
well-founded recursion and does not reduce in the kernel). -/
def pyStrip (s : String) : String :=
  String.mk (((s.data.dropWhile Char.isWhitespace).reverse.dropWhile
    Char.isWhitespace).reverse)

/-- State threaded through one watcher tick: engine queues, artifact
filesystem, and the log of `complete` calls made so far this tick. -/
structure TickState where
  engine : EngineState
  fs : Dict String
  completeCalls : List (String × String)
deriving DecidableEq, Repr

/-- One iteration of the loop body of
`CompletionDetector._check_for_completions` (completion_detector.py lines
75-98) for ticket id `id`: if the artifact exists, read and strip it; an
empty summary is logged and the file left in place; otherwise
`mark_ticket_completed` is called and the file deleted. -/
def detector_process (now : Int) (t : TickState) (id : String) : TickState :=
  match t.fs.lookup id with
  | none => t
  | some content =>
    if pyStrip content = "" then t
    else
      { engine := (mark_ticket_completed t.engine id (pyStrip content) now).state,
        fs := t.fs.erase id,
        completeCalls := t.completeCalls ++ [(id, pyStrip content)] }

/-- One iteration of the loop body of
`PlaneClaudeOrchestrator._poll_completion_loop` (daemon.py lines
125-146) for ticket id `id`: if the artifact exists, read and strip it,
call `mark_ticket_completed` with whatever the strip produced (there is
no emptiness check), then delete the file. -/
def daemon_process (now : Int) (t : TickState) (id : String) : TickState :=
  match t.fs.lookup id with
  | none => t
  | some content =>
    { engine := (mark_ticket_completed t.engine id (pyStrip content) now).state,
      fs := t.fs.erase id,
      completeCalls := t.completeCalls ++ [(id, pyStrip content)] }

/-- One full tick of `CompletionDetector._check_for_completions`:
iterate `detector_process` over a snapshot of the active ids. -/
def detector_tick (e : EngineState) (fs : Dict String) (now : Int) : TickState :=
  List.foldl (detector_process now) ⟨e, fs, []⟩ e.active.keys

/-- One full tick of the daemon's inline
`_poll_completion_loop` body: iterate `daemon_process` over a snapshot
of the active ids. -/
def daemon_tick (e : EngineState) (fs : Dict String) (now : Int) : TickState :=
  List.foldl (daemon_process now) ⟨e, fs, []⟩ e.active.keys

/-! ## Reachable engine states

The public operations that mutate the three queues, with their effect
parameters (clock readings and remote-call outcomes) recorded in the
operation itself. -/

/-- One public operation on the engine state. -/
inductive Op where
  | pollAdmit (t : Ticket)
  | testAdmit (t : Ticket)
  | approve (id : String) (co : CreateOutcome) (session_id : String) (now : Int)
  | complete (id : String) (summary : String) (now : Int)
  | publish (id : String) (commentRes : CallResult)
      (stateIdOpt : Option String) (stateRes : CallResult)
  | delete (id : String)
deriving DecidableEq, Repr

/-- Apply one operation to the engine state. -/
def applyOp (s : EngineState) : Op → EngineState
  | .pollAdmit t => poll_admission s t
  | .testAdmit t => add_pending_ticket s t
  | .approve id co sid now => (approve_ticket s id co sid now).state
  | .complete id summary now => (mark_ticket_completed s id summary now).state
  | .publish id c st u => (update_plane_ticket s id c st u).2
  | .delete id => (delete_ticket s id).2

/-- The state after a sequence of operations from the fresh state. -/
def run (ops : List Op) : EngineState := List.foldl applyOp initState ops

/-- The disjoint-membership invariant: no ticket id is in two of the
three queues at once. -/
def DisjointState (s : EngineState) : Prop :=
  ∀ id : String,
    ¬ (inPending s id = true ∧ inActive s id = true) ∧
    ¬ (inPending s id = true ∧ inCompleted s id = true) ∧
    ¬ (inActive s id = true ∧ inCompleted s id = true)

/-- Marks the operations whose admissions go through the poll loop's
already-queued guard (every operation except the unguarded test-endpoint
admission). -/
def opGuarded : Op → Bool
  | .testAdmit _ => false
  | _ => true

/-! ## Concrete fixtures used in witnesses and counterexamples -/

/-- A concrete polled ticket, as built by `poll_for_triggers`. -/
def sampleTicket : Ticket :=
  { tid := "CSLOG-16", uuid := "u-16", project_id := "p-1",
    title := "Fix login", description := "<p>desc</p>",
    trigger_type := some "new_ticket",
    created_at := "2025-01-01T00:00:00", updated_at := some "2025-01-02T00:00:00" }

/-- `sampleTicket` after a successful approval at clock reading 100. -/
def activeTicket : Ticket :=
  { sampleTicket with session_id := some "sess-1",
                      started_at := some (Timestamp.iso 100) }

/-- `activeTicket` after completion at clock reading 200. -/
def doneTicket : Ticket :=
  { activeTicket with summary := some "done",
                      completed_at := some (Timestamp.iso 200) }

/-- State with `sampleTicket` pending and nothing else. -/
def onePendingState : EngineState := ⟨[("CSLOG-16", sampleTicket)], [], []⟩

/-- State with `activeTicket` active and nothing else. -/
def oneActiveState : EngineState := ⟨[], [("CSLOG-16", activeTicket)], []⟩

/-- State with `doneTicket` completed and nothing else. -/
def oneCompletedState : EngineState := ⟨[], [], [("CSLOG-16", doneTicket)]⟩

/-- Admission through the unguarded test endpoint, approval, then a second
test-endpoint admission of the same ticket id. -/
def c1BadOps : List Op :=
  [Op.testAdmit sampleTicket,
   Op.approve "CSLOG-16" CreateOutcome.success "sess-1" 100,
   Op.testAdmit sampleTicket]

/-- A full guarded lifecycle of `sampleTicket`. -/
def c1GoodOps : List Op :=
  [Op.pollAdmit sampleTicket,
   Op.approve "CSLOG-16" CreateOutcome.success "sess-1" 100,
   Op.complete "CSLOG-16" "done" 200,
   Op.publish "CSLOG-16" CallResult.ok (some "st-1") CallResult.failed,
   Op.pollAdmit sampleTicket]

/-- An artifact for the active ticket whose stripped text is `"done"`. -/
def doneArtifactFs : Dict String := [("CSLOG-16", " done\n")]

/-- An artifact for the active ticket whose text strips to empty. -/
def emptyArtifactFs : Dict String := [("CSLOG-16", "  \n")]

/-- A wire on which every attempt gets HTTP 503. -/
def wire503 : Nat → HttpAttempt := fun _ => HttpAttempt.response 503

/-- A wire on which every attempt gets HTTP 404. -/
def wire404 : Nat → HttpAttempt := fun _ => HttpAttempt.response 404

/-- Snapshot fixture for the trigger claims. -/
def snapA : PollSnapshot := ⟨some "st-todo", some "2025-01-02T00:00:00"⟩

/-- Issue fixture whose state and updated_at both differ from `snapA`. -/
def issueB : IssueData :=
  ⟨some "st-doing", some "2025-01-03T00:00:00", "started"⟩

/-! ## Dict lemmas -/

namespace Dict

variable {T : Type}

@[simp] theorem lookup_nil (k : String) : (([] : Dict T).lookup k) = none := rfl

theorem lookup_cons (p : String × T) (d : Dict T) (k : String) :
    lookup (p :: d) k = if p.1 = k then some p.2 else lookup d k := rfl

theorem lookup_insert_self (d : Dict T) (k : String) (v : T) :
    (d.insert k v).lookup k = some v := by
  induction d with
  | nil => simp [insert, lookup]
  | cons p rest ih =>
      by_cases h : p.1 = k
      · simp [insert, h, lookup]
      · simp [insert, h, lookup, ih]

theorem lookup_insert_other (d : Dict T) (k k' : String) (v : T) (h : k' ≠ k) :
    (d.insert k v).lookup k' = d.lookup k' := by
  have hkk : ¬ (k = k') := fun he => h he.symm
  induction d with
  | nil => simp [insert, lookup, hkk]
  | cons p rest ih =>
      by_cases hp : p.1 = k
      · have hpk : ¬ (p.1 = k') := by rw [hp]; exact hkk
        rw [insert, if_pos hp, lookup_cons, lookup_cons]
        simp [hkk, hpk]
      · rw [insert, if_neg hp, lookup_cons, lookup_cons, ih]

theorem lookup_erase_self (d : Dict T) (k : String) :
    (d.erase k).lookup k = none := by
  induction d with
  | nil => rfl
  | cons p rest ih =>
      by_cases h : p.1 = k
      · rw [erase, if_pos h]; exact ih
      · rw [erase, if_neg h, lookup_cons, ih]
        simp [h]

theorem lookup_erase_other (d : Dict T) (k k' : String) (h : k' ≠ k) :
    (d.erase k).lookup k' = d.lookup k' := by
  induction d with
  | nil => rfl
  | cons p rest ih =>
      by_cases hp : p.1 = k
      · have hpk : ¬ (p.1 = k') := by rw [hp]; exact fun he => h he.symm
        rw [erase, if_pos hp, ih, lookup_cons]
        simp [hpk]
      · rw [erase, if_neg hp, lookup_cons, lookup_cons, ih]

theorem contains_iff (d : Dict T) (k : String) :
    d.contains k = true ↔ ∃ v, d.lookup k = some v := by
  unfold contains
  cases h : d.lookup k with
  | none => simp
  | some v => simp

theorem lookup_mem_keys (d : Dict T) (k : String) (v : T)
    (h : d.lookup k = some v) : k ∈ d.keys := by
  induction d with
  | nil => simp [lookup] at h
  | cons p rest ih =>
      by_cases hp : p.1 = k
      · simp only [keys, List.map_cons, List.mem_cons]
        exact Or.inl hp.symm
      · rw [lookup_cons, if_neg hp] at h
        simp only [keys, List.map_cons, List.mem_cons]
        exact Or.inr (ih h)

theorem countKey_eq_zero (d : Dict T) (k : String) (h : ¬ k ∈ d.keys) :
    d.countKey k = 0 := by
  induction d with
  | nil => rfl
  | cons p rest ih =>
      simp only [keys, List.map_cons, List.mem_cons, not_or] at h
      have hp : ¬ (p.1 = k) := fun he => h.1 he.symm
      have hr : countKey rest k = 0 := ih (by simpa [keys] using h.2)
      unfold countKey at hr ⊢
      rw [List.filter_cons]
      simp only [decide_eq_true_eq]
      rw [if_neg hp]
      exact hr

theorem countKey_insert (d : Dict T) (k : String) (v : T)
    (h : d.keys.Nodup) : (d.insert k v).countKey k = 1 := by
  induction d with
  | nil => simp [insert, countKey]
  | cons p rest ih =>
      simp only [keys, List.map_cons, List.nodup_cons] at h
      by_cases hp : p.1 = k
      · rw [insert, if_pos hp]
        have hz : countKey rest k = 0 := countKey_eq_zero rest k (by rw [← hp]; exact h.1)
        unfold countKey at hz ⊢
        rw [List.filter_cons]
        simp only [decide_eq_true_eq]
        simp [hz]
      · rw [insert, if_neg hp]
        have hr : countKey (insert rest k v) k = 1 := ih h.2
        unfold countKey at hr ⊢
        rw [List.filter_cons]
        simp only [decide_eq_true_eq]
        rw [if_neg hp]
        exact hr

theorem insert_insert_same (d : Dict T) (k : String) (v : T) :
    (d.insert k v).insert k v = d.insert k v := by
  induction d with
  | nil => simp [insert]
  | cons p rest ih =>
      by_cases hp : p.1 = k
      · rw [insert, if_pos hp, insert, if_pos rfl]
      · rw [insert, if_neg hp, insert, if_neg hp, ih]

end Dict

/-! ## Claim C2: approve is atomic w.r.t. session creation -/

/-- C2: for a ticket id present in `pending_tickets`, if
`tmux_client.create_session` raises, `approve_ticket` reports the error
(HTTP 500) and the three queues are exactly as before the call; in
particular the ticket is still pending and nothing entered
`active_sessions`. -/
theorem approve_failed_create_is_atomic (s : EngineState) (ticket_id : String)
    (t : Ticket) (session_id : String) (now : Int)
    (h : s.pending.lookup ticket_id = some t) :
    approve_ticket s ticket_id CreateOutcome.raiseErr session_id now =
      ⟨ApproveStatus.createFailed, true, s⟩ ∧
    (approve_ticket s ticket_id CreateOutcome.raiseErr session_id now).state.pending.lookup
      ticket_id = some t := by
  unfold approve_ticket
  rw [h]
  exact ⟨rfl, h⟩

/-- Witness for C2 at a concrete one-ticket pending state. -/
theorem approve_failed_create_is_atomic_witness :
    approve_ticket onePendingState "CSLOG-16" CreateOutcome.raiseErr "sess-1" 100 =
      ⟨ApproveStatus.createFailed, true, onePendingState⟩ :=
  (approve_failed_create_is_atomic onePendingState "CSLOG-16" sampleTicket
      "sess-1" 100 rfl).1

/-! ## Claim C8: approve rejects non-pending ids without mutation -/

/-- C8: for a ticket id absent from `pending_tickets`, `approve_ticket`
returns the 404 error, does not invoke `create_session`, and leaves the
state untouched, whatever the session service would have replied. -/
theorem approve_unknown_id_rejected (s : EngineState) (ticket_id : String)
    (co : CreateOutcome) (session_id : String) (now : Int)
    (h : s.pending.lookup ticket_id = none) :
    approve_ticket s ticket_id co session_id now =
      ⟨ApproveStatus.notFound, false, s⟩ := by
  unfold approve_ticket
  rw [h]

/-- Witness for C8: approving an id that is currently active. -/
theorem approve_unknown_id_rejected_witness :
    approve_ticket oneActiveState "CSLOG-16" CreateOutcome.success "sess-2" 300 =
      ⟨ApproveStatus.notFound, false, oneActiveState⟩ :=
  approve_unknown_id_rejected oneActiveState "CSLOG-16" CreateOutcome.success
    "sess-2" 300 rfl

/-! ## Claim C9: admit is idempotent on membership -/

/-- C9: two `add_pending_ticket` calls with the same ticket yield exactly
the state of a single call, and the pending queue stores exactly one
entry for that id. -/
theorem admit_idempotent_membership (s : EngineState) (t : Ticket)
    (h : s.pending.keys.Nodup) :
    add_pending_ticket (add_pending_ticket s t) t = add_pending_ticket s t ∧
    Dict.countKey (add_pending_ticket s t).pending t.tid = 1 := by
  constructor
  · unfold add_pending_ticket
    simp [Dict.insert_insert_same]
  · exact Dict.countKey_insert s.pending t.tid t h

/-- Witness for C9 at the fresh state. -/
theorem admit_idempotent_membership_witness :
    add_pending_ticket (add_pending_ticket initState sampleTicket) sampleTicket =
      add_pending_ticket initState sampleTicket ∧
    Dict.countKey (add_pending_ticket initState sampleTicket).pending "CSLOG-16" = 1 := by
  have h := admit_idempotent_membership initState sampleTicket
    (by simp [initState, Dict.empty, Dict.keys])
  exact ⟨h.1, h.2⟩

/-! ## Claim C6: state changes win the trigger tie -/

/-- C6: with an existing snapshot, a state difference yields
`status_change` regardless of `updated_at`; `comment_added` is returned
exactly when the state is unchanged and `updated_at` differs. -/
theorem trigger_state_change_wins (last : PollSnapshot) (issue : IssueData) :
    (issue.state ≠ last.state →
      (check_trigger (some last) issue).1 = some "status_change") ∧
    ((check_trigger (some last) issue).1 = some "comment_added" ↔
      issue.state = last.state ∧ issue.updated_at ≠ last.updated_at) := by
  constructor
  · intro h
    simp [check_trigger, h]
  · by_cases hs : issue.state = last.state
    · by_cases hu : issue.updated_at = last.updated_at
      · simp [check_trigger, hs, hu]
      · simp [check_trigger, hs, hu]
    · simp [check_trigger, hs]

/-- Witness for C6: simultaneous state and updated_at change reports
`status_change`. -/
theorem trigger_state_change_wins_witness :
    (check_trigger (some snapA) issueB).1 = some "status_change" :=
  (trigger_state_change_wins snapA issueB).1 (by decide)

/-! ## Claim C10: status_change leaves the snapshot updated_at stale -/

/-- C10: when both the state and `updated_at` of an issue differ from its
snapshot, `_check_trigger` reports `status_change` but writes only the
snapshot's state; the very next check of the unchanged issue then
reports `comment_added` for the same edit. -/
theorem status_change_leaves_stale_updated_at (last : PollSnapshot)
    (issue : IssueData)
    (hs : issue.state ≠ last.state) (hu : issue.updated_at ≠ last.updated_at) :
    (check_trigger (some last) issue).1 = some "status_change" ∧
    (check_trigger (some last) issue).2.updated_at = last.updated_at ∧
    (check_trigger (some (check_trigger (some last) issue).2) issue).1 =
      some "comment_added" := by
  have h2 : (check_trigger (some last) issue).2 =
      { last with state := issue.state } := by
    simp [check_trigger, hs]
  refine ⟨by simp [check_trigger, hs], by rw [h2], ?_⟩
  rw [h2]
  simp [check_trigger, hu]

/-- Witness for C10 at the concrete snapshot and issue. -/
theorem status_change_leaves_stale_updated_at_witness :
    (check_trigger (some (check_trigger (some snapA) issueB).2) issueB).1 =
      some "comment_added" :=
  (status_change_leaves_stale_updated_at snapA issueB (by decide) (by decide)).2.2

/-! ## Claim C7: complete contract -/

/-- C7: for an active ticket id, `mark_ticket_completed` moves it to
`completed_tickets` stamped with the summary and `completed_at = now`
(so `completed_at ≥ started_at` whenever `started_at` was stamped at or
before `now`); the duration `completed_at - started_at` is observed
exactly when both timestamps parse, and the transition succeeds even
when they do not. -/
theorem complete_contract (s : EngineState) (ticket_id : String) (t : Ticket)
    (summary : String) (now : Int)
    (h : s.active.lookup ticket_id = some t)
    (hclock : ∀ a, t.started_at = some (Timestamp.iso a) → a ≤ now) :
    (mark_ticket_completed s ticket_id summary now).transitioned = true ∧
    (mark_ticket_completed s ticket_id summary now).state.active.lookup ticket_id =
      none ∧
    (mark_ticket_completed s ticket_id summary now).state.completed.lookup ticket_id =
      some { t with summary := some summary,
                    completed_at := some (Timestamp.iso now) } ∧
    ((mark_ticket_completed s ticket_id summary now).duration.isSome ↔
      ∃ a, t.started_at = some (Timestamp.iso a)) ∧
    (∀ a, t.started_at = some (Timestamp.iso a) →
      (mark_ticket_completed s ticket_id summary now).duration = some (now - a) ∧
      a ≤ now) := by
  unfold mark_ticket_completed
  rw [h]
  refine ⟨rfl, ?_, ?_, ?_, ?_⟩
  · exact Dict.lookup_erase_self s.active ticket_id
  · exact Dict.lookup_insert_self s.completed ticket_id _
  · cases hst : t.started_at with
    | none => simp [parseTimestamp, hst]
    | some st =>
        cases st with
        | iso a => simp [parseTimestamp, hst]
        | malformed m => simp [parseTimestamp, hst]
  · intro a ha
    exact ⟨by simp [parseTimestamp, ha], hclock a ha⟩

/-- Witness for C7: completing the concrete active ticket at time 200. -/
theorem complete_contract_witness :
    (mark_ticket_completed oneActiveState "CSLOG-16" "done" 200).transitioned = true ∧
    (mark_ticket_completed oneActiveState "CSLOG-16" "done" 200).duration =
      some 100 := by
  have hc : ∀ a, activeTicket.started_at = some (Timestamp.iso a) → a ≤ (200 : Int) := by
    intro a ha
    have hb : activeTicket.started_at = some (Timestamp.iso 100) := rfl
    rw [hb] at ha
    injection ha with hi
    injection hi with hv
    rw [← hv]
    decide
  have h := complete_contract oneActiveState "CSLOG-16" activeTicket "done" 200 rfl hc
  refine ⟨h.1, ?_⟩
  have hd := (h.2.2.2.2 100 rfl).1
  simpa using hd

/-! ## Claim C3: publish removal gated on comment success only -/

/-- C3: for a ticket id in `completed_tickets`, `update_plane_ticket`
removes it exactly when `add_issue_comment` reports success; on a
comment failure (returns `False`) or exception the whole state is
unchanged; and the outcome of the secondary `update_issue_state` call
never influences the result. -/
theorem publish_removes_iff_comment_success (s : EngineState) (ticket_id : String)
    (t : Ticket) (commentRes : CallResult) (stateIdOpt : Option String)
    (stateRes : CallResult)
    (h : s.completed.lookup ticket_id = some t) :
    ((update_plane_ticket s ticket_id commentRes stateIdOpt stateRes).2.completed.lookup
        ticket_id = none ↔ commentRes = CallResult.ok) ∧
    (commentRes ≠ CallResult.ok →
      (update_plane_ticket s ticket_id commentRes stateIdOpt stateRes).2 = s) ∧
    (commentRes = CallResult.ok →
      (update_plane_ticket s ticket_id commentRes stateIdOpt stateRes).2 =
        { s with completed := s.completed.erase ticket_id }) ∧
    (∀ stateRes', update_plane_ticket s ticket_id commentRes stateIdOpt stateRes' =
        update_plane_ticket s ticket_id commentRes stateIdOpt stateRes) := by
  unfold update_plane_ticket
  rw [h]
  cases commentRes with
  | ok =>
      exact ⟨by simp [Dict.lookup_erase_self], by simp, fun _ => rfl, fun _ => rfl⟩
  | failed =>
      exact ⟨by simp [h], fun _ => rfl, by simp, fun _ => rfl⟩
  | raised =>
      exact ⟨by simp [h], fun _ => rfl, by simp, fun _ => rfl⟩

/-- Witness for C3: a failed comment leaves the concrete completed state
unchanged. -/
theorem publish_removes_iff_comment_success_witness :
    (update_plane_ticket oneCompletedState "CSLOG-16" CallResult.failed
        (some "st-1") CallResult.ok).2 = oneCompletedState :=
  (publish_removes_iff_comment_success oneCompletedState "CSLOG-16" doneTicket
      CallResult.failed (some "st-1") CallResult.ok rfl).2.1 (by decide)

/-! ## Claim C5: retry policy of the write operations -/

/-- The `add_issue_comment` body raises exactly on transient attempts. -/
theorem commentAttempt_error_iff (a : HttpAttempt) :
    commentAttempt a = Except.error () ↔ isTransient a = true := by
  cases a with
  | netError => simp [commentAttempt, isTransient]
  | response n =>
      by_cases h2 : n = 200 ∨ n = 201
      · rcases h2 with h | h <;> subst h <;> simp [commentAttempt, isTransient]
      · by_cases h5 : 500 ≤ n
        · simp [commentAttempt, isTransient, h2, h5]
        · simp [commentAttempt, isTransient, h2, h5]

/-- The `update_issue_state` body raises exactly on transient attempts. -/
theorem stateAttempt_error_iff (a : HttpAttempt) :
    stateAttempt a = Except.error () ↔ isTransient a = true := by
  cases a with
  | netError => simp [stateAttempt, isTransient]
  | response n =>
      by_cases h2 : n = 200
      · subst h2; simp [stateAttempt, isTransient]
      · by_cases h5 : 500 ≤ n
        · simp [stateAttempt, isTransient, h2, h5]
        · simp [stateAttempt, isTransient, h2, h5]

/-- Full behaviour of the 3-attempt retry loop as a nested case split on
the first three attempt outcomes. -/
theorem retryGo_three_spec (body : Nat → Except Unit Bool) :
    retryGo body 3 3 1 [] =
      match body 1 with
      | .ok b => ⟨.ok b, 1, []⟩
      | .error _ =>
        match body 2 with
        | .ok b => ⟨.ok b, 2, [2]⟩
        | .error _ =>
          match body 3 with
          | .ok b => ⟨.ok b, 3, [2, 4]⟩
          | .error e => ⟨.error e, 3, [2, 4]⟩ := by
  rcases h1 : body 1 with e1 | b1 <;> rcases h2 : body 2 with e2 | b2 <;>
    rcases h3 : body 3 with e3 | b3 <;>
      simp [retryGo, h1, h2, h3, waitExponential]

/-- Shape of any trace of the 3-attempt retry loop: at most three
attempts, exponential waits, earlier attempts all raised, raising with
budget left always retries, a first-attempt return is final, and three
raises exhaust the budget and re-raise. -/
theorem retry_trace_cases (body : Nat → Except Unit Bool) :
    (retryGo body 3 3 1 []).attempts ≤ 3 ∧
    (retryGo body 3 3 1 []).waits =
      List.map (fun i => waitExponential 1 2 10 (i + 1))
        (List.range ((retryGo body 3 3 1 []).attempts - 1)) ∧
    (∀ i, 1 ≤ i → i < (retryGo body 3 3 1 []).attempts →
      body i = Except.error ()) ∧
    (∀ i, 1 ≤ i → i < 3 →
      (∀ j, 1 ≤ j → j ≤ i → body j = Except.error ()) →
      i < (retryGo body 3 3 1 []).attempts) ∧
    (∀ b, body 1 = Except.ok b → retryGo body 3 3 1 [] = ⟨Except.ok b, 1, []⟩) ∧
    ((∀ i, body i = Except.error ()) →
      (retryGo body 3 3 1 []).result = Except.error () ∧
      (retryGo body 3 3 1 []).attempts = 3) := by
  cases h1 : body 1 with
  | ok b1 =>
      have htr : retryGo body 3 3 1 [] = ⟨Except.ok b1, 1, []⟩ := by
        rw [retryGo_three_spec body, h1]
      rw [htr]
      refine ⟨?_, ?_, ?_, ?_, ?_, ?_⟩
      · show (1 : Nat) ≤ 3
        decide
      · show ([] : List Nat) =
          List.map (fun i => waitExponential 1 2 10 (i + 1)) (List.range (1 - 1))
        decide
      · intro i hi1 hi2
        have hi2' : i < 1 := hi2
        omega
      · intro i hi1 hi2 hall
        have := hall 1 (by omega) (by omega)
        rw [h1] at this
        exact absurd this (by simp)
      · intro b hb
        rw [Except.ok.inj hb]
      · intro hall
        have := hall 1
        rw [h1] at this
        exact absurd this (by simp)
  | error e1 =>
      cases e1
      cases h2 : body 2 with
      | ok b2 =>
          have htr : retryGo body 3 3 1 [] = ⟨Except.ok b2, 2, [2]⟩ := by
            rw [retryGo_three_spec body, h1, h2]
          rw [htr]
          refine ⟨?_, ?_, ?_, ?_, ?_, ?_⟩
          · show (2 : Nat) ≤ 3
            decide
          · show ([2] : List Nat) =
              List.map (fun i => waitExponential 1 2 10 (i + 1)) (List.range (2 - 1))
            decide
          · intro i hi1 hi2
            have hi2' : i < 2 := hi2
            have : i = 1 := by omega
            rw [this]
            exact h1
          · intro i hi1 hi2 hall
            show i < 2
            rcases Nat.lt_or_ge i 2 with hlt | hge
            · exact hlt
            · have hi2eq : i = 2 := by omega
              have := hall 2 (by omega) (by omega)
              rw [h2] at this
              exact absurd this (by simp)
          · intro b hb
            exact absurd hb (by simp)
          · intro hall
            have := hall 2
            rw [h2] at this
            exact absurd this (by simp)
      | error e2 =>
          cases e2
          cases h3 : body 3 with
          | ok b3 =>
              have htr : retryGo body 3 3 1 [] = ⟨Except.ok b3, 3, [2, 4]⟩ := by
                rw [retryGo_three_spec body, h1, h2, h3]
              rw [htr]
              refine ⟨?_, ?_, ?_, ?_, ?_, ?_⟩
              · show (3 : Nat) ≤ 3
                decide
              · show ([2, 4] : List Nat) =
                  List.map (fun i => waitExponential 1 2 10 (i + 1)) (List.range (3 - 1))
                decide
              · intro i hi1 hi2
                have hi2' : i < 3 := hi2
                rcases Nat.lt_or_ge i 2 with hlt | hge
                · have : i = 1 := by omega
                  rw [this]; exact h1
                · have : i = 2 := by omega
                  rw [this]; exact h2
              · intro i hi1 hi2 hall
                exact hi2
              · intro b hb
                exact absurd hb (by simp)
              · intro hall
                have := hall 3
                rw [h3] at this
                exact absurd this (by simp)
          | error e3 =>
              cases e3
              have htr : retryGo body 3 3 1 [] = ⟨Except.error (), 3, [2, 4]⟩ := by
                rw [retryGo_three_spec body, h1, h2, h3]
              rw [htr]
              refine ⟨?_, ?_, ?_, ?_, ?_, ?_⟩
              · show (3 : Nat) ≤ 3
                decide
              · show ([2, 4] : List Nat) =
                  List.map (fun i => waitExponential 1 2 10 (i + 1)) (List.range (3 - 1))
                decide
              · intro i hi1 hi2
                have hi2' : i < 3 := hi2
                rcases Nat.lt_or_ge i 2 with hlt | hge
                · have : i = 1 := by omega
                  rw [this]; exact h1
                · have : i = 2 := by omega
                  rw [this]; exact h2
              · intro i hi1 hi2 hall
                exact hi2
              · intro b hb
                exact absurd hb (by simp)
              · intro hall
                exact ⟨rfl, rfl⟩

/-- C5: both write operations make at most 3 attempts; the waits between
attempts follow `wait_exponential(1, min=2, max=10)` of the attempt
number; every attempt before the last raised a network error or 5xx;
raising with budget left always triggers a retry; a non-success status
below 500 on the first attempt is terminal and returned as `False`
without any retry; and all-transient attempts exhaust the budget and
re-raise. -/
theorem write_retry_policy (wire : Nat → HttpAttempt) :
    (add_issue_comment wire).attempts ≤ 3 ∧
    (update_issue_state wire).attempts ≤ 3 ∧
    (add_issue_comment wire).waits =
      List.map (fun i => waitExponential 1 2 10 (i + 1))
        (List.range ((add_issue_comment wire).attempts - 1)) ∧
    (∀ i, 1 ≤ i → i < (add_issue_comment wire).attempts →
      isTransient (wire i) = true) ∧
    (∀ i, 1 ≤ i → i < 3 →
      (∀ j, 1 ≤ j → j ≤ i → isTransient (wire j) = true) →
      i < (add_issue_comment wire).attempts) ∧
    (∀ n, wire 1 = HttpAttempt.response n → ¬ (n = 200 ∨ n = 201) → n < 500 →
      add_issue_comment wire = ⟨Except.ok false, 1, []⟩) ∧
    (∀ n, wire 1 = HttpAttempt.response n → ¬ n = 200 → n < 500 →
      update_issue_state wire = ⟨Except.ok false, 1, []⟩) ∧
    ((∀ i, isTransient (wire i) = true) →
      (add_issue_comment wire).result = Except.error () ∧
      (add_issue_comment wire).attempts = 3) := by
  have hc := retry_trace_cases (fun n => commentAttempt (wire n))
  have hs := retry_trace_cases (fun n => stateAttempt (wire n))
  refine ⟨hc.1, hs.1, hc.2.1, ?_, ?_, ?_, ?_, ?_⟩
  · intro i hi1 hi2
    exact (commentAttempt_error_iff (wire i)).mp (hc.2.2.1 i hi1 hi2)
  · intro i hi1 hi2 hall
    exact hc.2.2.2.1 i hi1 hi2
      (fun j hj1 hj2 => (commentAttempt_error_iff (wire j)).mpr (hall j hj1 hj2))
  · intro n hn h2 h5
    have h5' : ¬ 500 ≤ n := by omega
    have hb : commentAttempt (wire 1) = Except.ok false := by
      rw [hn]
      simp [commentAttempt, h2, h5']
    exact hc.2.2.2.2.1 false hb
  · intro n hn h2 h5
    have h5' : ¬ 500 ≤ n := by omega
    have hb : stateAttempt (wire 1) = Except.ok false := by
      rw [hn]
      simp [stateAttempt, h2, h5']
    exact hs.2.2.2.2.1 false hb
  · intro hall
    exact hc.2.2.2.2.2
      (fun i => (commentAttempt_error_iff (wire i)).mpr (hall i))

/-- Witness for C5: three straight 503s exhaust the budget and re-raise;
a single 404 is terminal with result `False` and no waits. -/
theorem write_retry_policy_witness :
    ((add_issue_comment wire503).result = Except.error () ∧
      (add_issue_comment wire503).attempts = 3) ∧
    add_issue_comment wire404 = ⟨Except.ok false, 1, []⟩ :=
  ⟨(write_retry_policy wire503).2.2.2.2.2.2.2 (fun _ => rfl),
   (write_retry_policy wire404).2.2.2.2.2.1 404 rfl (by decide) (by decide)⟩

/-! ## Claim C1: disjoint queue membership -/

theorem Dict.contains_insert_self {T : Type} (d : Dict T) (k : String) (v : T) :
    (d.insert k v).contains k = true := by
  unfold Dict.contains
  rw [Dict.lookup_insert_self]
  rfl

theorem Dict.contains_insert_other {T : Type} (d : Dict T) (k k' : String) (v : T)
    (h : k' ≠ k) : (d.insert k v).contains k' = d.contains k' := by
  unfold Dict.contains
  rw [Dict.lookup_insert_other d k k' v h]

theorem Dict.contains_erase_self {T : Type} (d : Dict T) (k : String) :
    (d.erase k).contains k = false := by
  unfold Dict.contains
  rw [Dict.lookup_erase_self]
  rfl

theorem Dict.contains_erase_other {T : Type} (d : Dict T) (k k' : String)
    (h : k' ≠ k) : (d.erase k).contains k' = d.contains k' := by
  unfold Dict.contains
  rw [Dict.lookup_erase_other d k k' h]

theorem bool_tf {b : Bool} (h1 : b = true) (h2 : b = false) : False := by
  rw [h1] at h2
  exact Bool.noConfusion h2

theorem initState_disjoint : DisjointState initState := by
  intro id
  refine ⟨?_, ?_, ?_⟩ <;> rintro ⟨a, b⟩ <;>
    simp [inPending, inActive, inCompleted, initState, Dict.empty, Dict.contains,
      Dict.lookup] at a

theorem poll_admission_preserves (s : EngineState) (t : Ticket)
    (hd : DisjointState s) : DisjointState (poll_admission s t) := by
  unfold poll_admission
  by_cases hq : (inPending s t.tid || inActive s t.tid || inCompleted s t.tid) = true
  · rw [if_pos hq]
    exact hd
  · rw [if_neg hq]
    simp only [Bool.or_eq_true, not_or, Bool.not_eq_true] at hq
    obtain ⟨⟨hP, hA⟩, hC⟩ := hq
    intro j
    obtain ⟨h1, h2, h3⟩ := hd j
    by_cases hid : j = t.tid
    · subst hid
      refine ⟨?_, ?_, ?_⟩
      · rintro ⟨_, hb⟩
        have hb' : inActive s t.tid = true := hb
        exact bool_tf hb' hA
      · rintro ⟨_, hb⟩
        have hb' : inCompleted s t.tid = true := hb
        exact bool_tf hb' hC
      · rintro ⟨ha, _⟩
        have ha' : inActive s t.tid = true := ha
        exact bool_tf ha' hA
    · refine ⟨?_, ?_, ?_⟩
      · rintro ⟨ha, hb⟩
        have ha2 : (s.pending.insert t.tid t).contains j = true := ha
        rw [Dict.contains_insert_other s.pending t.tid j t hid] at ha2
        exact h1 ⟨ha2, hb⟩
      · rintro ⟨ha, hb⟩
        have ha2 : (s.pending.insert t.tid t).contains j = true := ha
        rw [Dict.contains_insert_other s.pending t.tid j t hid] at ha2
        exact h2 ⟨ha2, hb⟩
      · exact h3

theorem approve_preserves (s : EngineState) (ticket_id : String)
    (co : CreateOutcome) (sid : String) (now : Int) (hd : DisjointState s) :
    DisjointState (approve_ticket s ticket_id co sid now).state := by
  unfold approve_ticket
  cases hq : s.pending.lookup ticket_id with
  | none => exact hd
  | some t =>
      cases co with
      | raiseErr => exact hd
      | success =>
          intro j
          obtain ⟨h1, h2, h3⟩ := hd j
          by_cases hid : j = ticket_id
          · subst hid
            have hP : inPending s j = true := by
              unfold inPending Dict.contains
              rw [hq]
              rfl
            refine ⟨?_, ?_, ?_⟩
            · rintro ⟨ha, _⟩
              have ha2 : (s.pending.erase j).contains j = true := ha
              rw [Dict.contains_erase_self] at ha2
              exact Bool.false_ne_true ha2
            · rintro ⟨ha, _⟩
              have ha2 : (s.pending.erase j).contains j = true := ha
              rw [Dict.contains_erase_self] at ha2
              exact Bool.false_ne_true ha2
            · rintro ⟨_, hb⟩
              have hb2 : inCompleted s j = true := hb
              exact h2 ⟨hP, hb2⟩
          · refine ⟨?_, ?_, ?_⟩
            · rintro ⟨ha, hb⟩
              have ha2 : (s.pending.erase ticket_id).contains j = true := ha
              rw [Dict.contains_erase_other s.pending ticket_id j hid] at ha2
              have hb2 : (s.active.insert ticket_id
                  { t with session_id := some sid,
                           started_at := some (Timestamp.iso now) }).contains j =
                  true := hb
              rw [Dict.contains_insert_other s.active ticket_id j _ hid] at hb2
              exact h1 ⟨ha2, hb2⟩
            · rintro ⟨ha, hb⟩
              have ha2 : (s.pending.erase ticket_id).contains j = true := ha
              rw [Dict.contains_erase_other s.pending ticket_id j hid] at ha2
              exact h2 ⟨ha2, hb⟩
            · rintro ⟨ha, hb⟩
              have ha2 : (s.active.insert ticket_id
                  { t with session_id := some sid,
                           started_at := some (Timestamp.iso now) }).contains j =
                  true := ha
              rw [Dict.contains_insert_other s.active ticket_id j _ hid] at ha2
              exact h3 ⟨ha2, hb⟩

theorem complete_preserves (s : EngineState) (ticket_id : String)
    (summary : String) (now : Int) (hd : DisjointState s) :
    DisjointState (mark_ticket_completed s ticket_id summary now).state := by
  unfold mark_ticket_completed
  cases hq : s.active.lookup ticket_id with
  | none => exact hd
  | some t =>
      intro j
      obtain ⟨h1, h2, h3⟩ := hd j
      by_cases hid : j = ticket_id
      · subst hid
        have hA : inActive s j = true := by
          unfold inActive Dict.contains
          rw [hq]
          rfl
        refine ⟨?_, ?_, ?_⟩
        · rintro ⟨_, hb⟩
          have hb2 : (s.active.erase j).contains j = true := hb
          rw [Dict.contains_erase_self] at hb2
          exact Bool.false_ne_true hb2
        · rintro ⟨ha, _⟩
          have ha2 : inPending s j = true := ha
          exact h1 ⟨ha2, hA⟩
        · rintro ⟨ha, _⟩
          have ha2 : (s.active.erase j).contains j = true := ha
          rw [Dict.contains_erase_self] at ha2
          exact Bool.false_ne_true ha2
      · refine ⟨?_, ?_, ?_⟩
        · rintro ⟨ha, hb⟩
          have hb2 : (s.active.erase ticket_id).contains j = true := hb
          rw [Dict.contains_erase_other s.active ticket_id j hid] at hb2
          exact h1 ⟨ha, hb2⟩
        · rintro ⟨ha, hb⟩
          have hb2 : (s.completed.insert ticket_id
              { t with summary := some summary,
                       completed_at := some (Timestamp.iso now) }).contains j =
              true := hb
          rw [Dict.contains_insert_other s.completed ticket_id j _ hid] at hb2
          exact h2 ⟨ha, hb2⟩
        · rintro ⟨ha, hb⟩
          have ha2 : (s.active.erase ticket_id).contains j = true := ha
          rw [Dict.contains_erase_other s.active ticket_id j hid] at ha2
          have hb2 : (s.completed.insert ticket_id
              { t with summary := some summary,
                       completed_at := some (Timestamp.iso now) }).contains j =
              true := hb
          rw [Dict.contains_insert_other s.completed ticket_id j _ hid] at hb2
          exact h3 ⟨ha2, hb2⟩

theorem publish_preserves (s : EngineState) (ticket_id : String)
    (c : CallResult) (st : Option String) (u : CallResult)
    (hd : DisjointState s) :
    DisjointState (update_plane_ticket s ticket_id c st u).2 := by
  unfold update_plane_ticket
  cases hq : s.completed.lookup ticket_id with
  | none => exact hd
  | some t =>
      cases c with
      | failed => exact hd
      | raised => exact hd
      | ok =>
          intro j
          obtain ⟨h1, h2, h3⟩ := hd j
          by_cases hid : j = ticket_id
          · subst hid
            refine ⟨fun hab => h1 ⟨hab.1, hab.2⟩, ?_, ?_⟩
            · rintro ⟨_, hb⟩
              have hb2 : (s.completed.erase j).contains j = true := hb
              rw [Dict.contains_erase_self] at hb2
              exact Bool.false_ne_true hb2
            · rintro ⟨_, hb⟩
              have hb2 : (s.completed.erase j).contains j = true := hb
              rw [Dict.contains_erase_self] at hb2
              exact Bool.false_ne_true hb2
          · refine ⟨fun hab => h1 ⟨hab.1, hab.2⟩, ?_, ?_⟩
            · rintro ⟨ha, hb⟩
              have hb2 : (s.completed.erase ticket_id).contains j = true := hb
              rw [Dict.contains_erase_other s.completed ticket_id j hid] at hb2
              exact h2 ⟨ha, hb2⟩
            · rintro ⟨ha, hb⟩
              have hb2 : (s.completed.erase ticket_id).contains j = true := hb
              rw [Dict.contains_erase_other s.completed ticket_id j hid] at hb2
              exact h3 ⟨ha, hb2⟩

theorem delete_preserves (s : EngineState) (ticket_id : String)
    (hd : DisjointState s) : DisjointState (delete_ticket s ticket_id).2 := by
  intro j
  obtain ⟨h1, h2, h3⟩ := hd j
  have hp : inPending (delete_ticket s ticket_id).2 j = true →
      inPending s j = true := by
    intro ha
    have ha2 : (if inPending s ticket_id then s.pending.erase ticket_id
        else s.pending).contains j = true := ha
    by_cases hc : inPending s ticket_id = true
    · rw [if_pos hc] at ha2
      by_cases hid : j = ticket_id
      · subst hid
        rw [Dict.contains_erase_self] at ha2
        exact absurd ha2 (by simp)
      · rw [Dict.contains_erase_other s.pending ticket_id j hid] at ha2
        exact ha2
    · rw [if_neg hc] at ha2
      exact ha2
  have hcm : inCompleted (delete_ticket s ticket_id).2 j = true →
      inCompleted s j = true := by
    intro ha
    have ha2 : (if inCompleted s ticket_id then s.completed.erase ticket_id
        else s.completed).contains j = true := ha
    by_cases hc : inCompleted s ticket_id = true
    · rw [if_pos hc] at ha2
      by_cases hid : j = ticket_id
      · subst hid
        rw [Dict.contains_erase_self] at ha2
        exact absurd ha2 (by simp)
      · rw [Dict.contains_erase_other s.completed ticket_id j hid] at ha2
        exact ha2
    · rw [if_neg hc] at ha2
      exact ha2
  exact ⟨fun hab => h1 ⟨hp hab.1, hab.2⟩, fun hab => h2 ⟨hp hab.1, hcm hab.2⟩,
         fun hab => h3 ⟨hab.1, hcm hab.2⟩⟩

theorem applyOp_preserves_disjoint (s : EngineState) (op : Op)
    (hg : opGuarded op = true) (hd : DisjointState s) :
    DisjointState (applyOp s op) := by
  cases op with
  | pollAdmit t => exact poll_admission_preserves s t hd
  | testAdmit t => exact absurd hg (by simp [opGuarded])
  | approve j co sid now => exact approve_preserves s j co sid now hd
  | complete j summary now => exact complete_preserves s j summary now hd
  | publish j c st u => exact publish_preserves s j c st u hd
  | delete j => exact delete_preserves s j hd

theorem foldl_preserves_disjoint (ops : List Op) (s : EngineState)
    (hd : DisjointState s) (hg : ops.all opGuarded = true) :
    DisjointState (List.foldl applyOp s ops) := by
  induction ops generalizing s with
  | nil => exact hd
  | cons op rest ih =>
      rw [List.foldl_cons]
      simp only [List.all_cons, Bool.and_eq_true] at hg
      exact ih (applyOp s op) (applyOp_preserves_disjoint s op hg.1 hd) hg.2

/-- C1 (amended): every state reachable from the fresh engine by public
operations whose admissions all pass through the poll loop's
already-queued guard satisfies the disjoint-membership invariant; the
unguarded test-endpoint admission is excluded, since it can re-admit an
j that is already Active or Completed. -/
theorem guarded_run_disjoint (ops : List Op)
    (hg : ops.all opGuarded = true) : DisjointState (run ops) :=
  foldl_preserves_disjoint ops initState initState_disjoint hg

/-- Witness for C1: a full guarded lifecycle keeps the queues disjoint. -/
theorem guarded_run_disjoint_witness :
    ¬ (inPending (run c1GoodOps) "CSLOG-16" = true ∧
       inActive (run c1GoodOps) "CSLOG-16" = true) :=
  (guarded_run_disjoint c1GoodOps (by decide) "CSLOG-16").1

/-- Counterexample for C1 as stated: admitting via the unguarded test
endpoint, approving, then re-admitting the same j via the test endpoint
leaves "CSLOG-16" in both `pending_tickets` and `active_sessions`. -/
theorem unguarded_admit_breaks_disjointness : ¬ DisjointState (run c1BadOps) := by
  intro h
  have hp : inPending (run c1BadOps) "CSLOG-16" = true := by decide
  have ha : inActive (run c1BadOps) "CSLOG-16" = true := by decide
  exact (h "CSLOG-16").1 ⟨hp, ha⟩

/-! ## Claim C4: watcher artifact contract -/

theorem mark_other_active (e : EngineState) (oid id : String) (summary : String)
    (now : Int) (h : ¬ id = oid) :
    (mark_ticket_completed e oid summary now).state.active.lookup id =
      e.active.lookup id := by
  unfold mark_ticket_completed
  cases ha : e.active.lookup oid with
  | none => rfl
  | some tk => exact Dict.lookup_erase_other e.active oid id h

theorem mark_other_completed (e : EngineState) (oid id : String)
    (summary : String) (now : Int) (h : ¬ id = oid) :
    (mark_ticket_completed e oid summary now).state.completed.lookup id =
      e.completed.lookup id := by
  unfold mark_ticket_completed
  cases ha : e.active.lookup oid with
  | none => rfl
  | some tk => exact Dict.lookup_insert_other e.completed oid id _ h

theorem mark_self (e : EngineState) (id : String) (tk : Ticket)
    (summary : String) (now : Int) (ha : e.active.lookup id = some tk) :
    (mark_ticket_completed e id summary now).state.active.lookup id = none ∧
    (mark_ticket_completed e id summary now).state.completed.lookup id =
      some { tk with summary := some summary,
                     completed_at := some (Timestamp.iso now) } := by
  unfold mark_ticket_completed
  rw [ha]
  exact ⟨Dict.lookup_erase_self e.active id, Dict.lookup_insert_self e.completed id _⟩

theorem detector_process_other (now : Int) (t : TickState) (id oid : String)
    (h : ¬ id = oid) :
    (detector_process now t oid).fs.lookup id = t.fs.lookup id ∧
    (detector_process now t oid).engine.active.lookup id =
      t.engine.active.lookup id ∧
    (detector_process now t oid).engine.completed.lookup id =
      t.engine.completed.lookup id ∧
    List.filter (fun c => c.1 = id) (detector_process now t oid).completeCalls =
      List.filter (fun c => c.1 = id) t.completeCalls := by
  cases hf : t.fs.lookup oid with
  | none =>
      simp only [detector_process, hf]
      exact ⟨trivial, trivial, trivial, trivial⟩
  | some content =>
      simp only [detector_process, hf]
      by_cases he : pyStrip content = ""
      · rw [if_pos he]
        exact ⟨rfl, rfl, rfl, rfl⟩
      · rw [if_neg he]
        refine ⟨Dict.lookup_erase_other t.fs oid id h,
          mark_other_active t.engine oid id (pyStrip content) now h,
          mark_other_completed t.engine oid id (pyStrip content) now h, ?_⟩
        rw [List.filter_append]
        have hnot : ¬ oid = id := fun he2 => h he2.symm
        have hone : List.filter (fun c => c.1 = id) [(oid, pyStrip content)] =
            ([] : List (String × String)) := by simp [hnot]
        rw [hone, List.append_nil]

theorem daemon_process_other (now : Int) (t : TickState) (id oid : String)
    (h : ¬ id = oid) :
    (daemon_process now t oid).fs.lookup id = t.fs.lookup id ∧
    (daemon_process now t oid).engine.active.lookup id =
      t.engine.active.lookup id ∧
    (daemon_process now t oid).engine.completed.lookup id =
      t.engine.completed.lookup id ∧
    List.filter (fun c => c.1 = id) (daemon_process now t oid).completeCalls =
      List.filter (fun c => c.1 = id) t.completeCalls := by
  cases hf : t.fs.lookup oid with
  | none =>
      simp only [daemon_process, hf]
      exact ⟨trivial, trivial, trivial, trivial⟩
  | some content =>
      simp only [daemon_process, hf]
      refine ⟨Dict.lookup_erase_other t.fs oid id h,
        mark_other_active t.engine oid id (pyStrip content) now h,
        mark_other_completed t.engine oid id (pyStrip content) now h, ?_⟩
      rw [List.filter_append]
      have hnot : ¬ oid = id := fun he2 => h he2.symm
      have hone : List.filter (fun c => c.1 = id) [(oid, pyStrip content)] =
          ([] : List (String × String)) := by simp [hnot]
      rw [hone, List.append_nil]

theorem detector_fold_other (now : Int) (ids : List String) (t : TickState)
    (id : String) (h : ¬ id ∈ ids) :
    (List.foldl (detector_process now) t ids).fs.lookup id = t.fs.lookup id ∧
    (List.foldl (detector_process now) t ids).engine.active.lookup id =
      t.engine.active.lookup id ∧
    (List.foldl (detector_process now) t ids).engine.completed.lookup id =
      t.engine.completed.lookup id ∧
    List.filter (fun c => c.1 = id)
        (List.foldl (detector_process now) t ids).completeCalls =
      List.filter (fun c => c.1 = id) t.completeCalls := by
  induction ids generalizing t with
  | nil => exact ⟨rfl, rfl, rfl, rfl⟩
  | cons oid rest ih =>
      simp only [List.mem_cons, not_or] at h
      rw [List.foldl_cons]
      obtain ⟨s1, s2, s3, s4⟩ := detector_process_other now t id oid h.1
      obtain ⟨f1, f2, f3, f4⟩ := ih (detector_process now t oid) h.2
      exact ⟨f1.trans s1, f2.trans s2, f3.trans s3, f4.trans s4⟩

theorem daemon_fold_other (now : Int) (ids : List String) (t : TickState)
    (id : String) (h : ¬ id ∈ ids) :
    (List.foldl (daemon_process now) t ids).fs.lookup id = t.fs.lookup id ∧
    (List.foldl (daemon_process now) t ids).engine.active.lookup id =
      t.engine.active.lookup id ∧
    (List.foldl (daemon_process now) t ids).engine.completed.lookup id =
      t.engine.completed.lookup id ∧
    List.filter (fun c => c.1 = id)
        (List.foldl (daemon_process now) t ids).completeCalls =
      List.filter (fun c => c.1 = id) t.completeCalls := by
  induction ids generalizing t with
  | nil => exact ⟨rfl, rfl, rfl, rfl⟩
  | cons oid rest ih =>
      simp only [List.mem_cons, not_or] at h
      rw [List.foldl_cons]
      obtain ⟨s1, s2, s3, s4⟩ := daemon_process_other now t id oid h.1
      obtain ⟨f1, f2, f3, f4⟩ := ih (daemon_process now t oid) h.2
      exact ⟨f1.trans s1, f2.trans s2, f3.trans s3, f4.trans s4⟩

theorem detector_process_self_nonempty (now : Int) (t : TickState) (id : String)
    (content : String) (tk : Ticket)
    (hf : t.fs.lookup id = some content) (hne : ¬ pyStrip content = "")
    (ha : t.engine.active.lookup id = some tk) :
    (detector_process now t id).fs.lookup id = none ∧
    (detector_process now t id).engine.active.lookup id = none ∧
    (detector_process now t id).engine.completed.lookup id =
      some { tk with summary := some (pyStrip content),
                     completed_at := some (Timestamp.iso now) } ∧
    List.filter (fun c => c.1 = id) (detector_process now t id).completeCalls =
      List.filter (fun c => c.1 = id) t.completeCalls ++ [(id, pyStrip content)] := by
  simp only [detector_process, hf]
  rw [if_neg hne]
  obtain ⟨m1, m2⟩ := mark_self t.engine id tk (pyStrip content) now ha
  refine ⟨Dict.lookup_erase_self t.fs id, m1, m2, ?_⟩
  rw [List.filter_append]
  simp

theorem detector_process_self_empty (now : Int) (t : TickState) (id : String)
    (content : String) (hf : t.fs.lookup id = some content)
    (he : pyStrip content = "") : detector_process now t id = t := by
  simp only [detector_process, hf]
  rw [if_pos he]

theorem daemon_process_self (now : Int) (t : TickState) (id : String)
    (content : String) (tk : Ticket)
    (hf : t.fs.lookup id = some content)
    (ha : t.engine.active.lookup id = some tk) :
    (daemon_process now t id).fs.lookup id = none ∧
    (daemon_process now t id).engine.completed.lookup id =
      some { tk with summary := some (pyStrip content),
                     completed_at := some (Timestamp.iso now) } ∧
    List.filter (fun c => c.1 = id) (daemon_process now t id).completeCalls =
      List.filter (fun c => c.1 = id) t.completeCalls ++ [(id, pyStrip content)] := by
  simp only [daemon_process, hf]
  obtain ⟨m1, m2⟩ := mark_self t.engine id tk (pyStrip content) now ha
  refine ⟨Dict.lookup_erase_self t.fs id, m2, ?_⟩
  rw [List.filter_append]
  simp

theorem keys_split (e : EngineState) (id : String) (tk : Ticket)
    (hN : e.active.keys.Nodup) (ha : e.active.lookup id = some tk) :
    ∃ l1 l2, e.active.keys = l1 ++ id :: l2 ∧ ¬ id ∈ l1 ∧ ¬ id ∈ l2 := by
  have hmem : id ∈ e.active.keys := Dict.lookup_mem_keys e.active id tk ha
  obtain ⟨l1, l2, hsplit⟩ := List.append_of_mem hmem
  rw [hsplit] at hN
  have h2 := List.nodup_middle.mp hN
  have h3 := (List.nodup_cons.mp h2).1
  refine ⟨l1, l2, hsplit, ?_, ?_⟩
  · intro hm
    exact h3 (List.mem_append.mpr (Or.inl hm))
  · intro hm
    exact h3 (List.mem_append.mpr (Or.inr hm))

/-- C4 (amended): on one completion-poll tick over a snapshot of the
active ids, `CompletionDetector._check_for_completions` honours the
artifact contract: a non-empty artifact for an active ticket produces
exactly one `mark_ticket_completed(id, stripped_text)` call, moves the
ticket to Completed, and deletes the artifact; an artifact that strips
to empty is skipped with the file left in place and no complete call.
The daemon's inline `_poll_completion_loop` lacks the emptiness check:
it always calls complete with the stripped text (possibly empty) and
deletes the artifact. -/
theorem watcher_artifact_contract (e : EngineState) (fs : Dict String)
    (now : Int) (id : String) (tk : Ticket) (content : String)
    (hN : e.active.keys.Nodup)
    (ha : e.active.lookup id = some tk)
    (hf : fs.lookup id = some content) :
    (¬ pyStrip content = "" →
      (detector_tick e fs now).fs.lookup id = none ∧
      (detector_tick e fs now).engine.active.lookup id = none ∧
      (detector_tick e fs now).engine.completed.lookup id =
        some { tk with summary := some (pyStrip content),
                       completed_at := some (Timestamp.iso now) } ∧
      List.filter (fun c => c.1 = id) (detector_tick e fs now).completeCalls =
        [(id, pyStrip content)]) ∧
    (pyStrip content = "" →
      (detector_tick e fs now).fs.lookup id = some content ∧
      (detector_tick e fs now).engine.active.lookup id = some tk ∧
      List.filter (fun c => c.1 = id) (detector_tick e fs now).completeCalls =
        []) ∧
    ((daemon_tick e fs now).fs.lookup id = none ∧
      (daemon_tick e fs now).engine.completed.lookup id =
        some { tk with summary := some (pyStrip content),
                       completed_at := some (Timestamp.iso now) } ∧
      List.filter (fun c => c.1 = id) (daemon_tick e fs now).completeCalls =
        [(id, pyStrip content)]) := by
  obtain ⟨l1, l2, hsplit, hn1, hn2⟩ := keys_split e id tk hN ha
  refine ⟨?_, ?_, ?_⟩
  · intro hne
    unfold detector_tick
    rw [hsplit, List.foldl_append, List.foldl_cons]
    obtain ⟨p1, p2, p3, p4⟩ := detector_fold_other now l1 ⟨e, fs, []⟩ id hn1
    obtain ⟨q1, q2, q3, q4⟩ := detector_process_self_nonempty now
      (List.foldl (detector_process now) ⟨e, fs, []⟩ l1) id content tk
      (p1.trans hf) hne (p2.trans ha)
    obtain ⟨r1, r2, r3, r4⟩ := detector_fold_other now l2
      (detector_process now (List.foldl (detector_process now) ⟨e, fs, []⟩ l1) id)
      id hn2
    refine ⟨r1.trans q1, r2.trans q2, r3.trans q3, ?_⟩
    rw [r4, q4, p4]
    simp
  · intro he
    unfold detector_tick
    rw [hsplit, List.foldl_append, List.foldl_cons]
    obtain ⟨p1, p2, p3, p4⟩ := detector_fold_other now l1 ⟨e, fs, []⟩ id hn1
    have hstep :
        detector_process now (List.foldl (detector_process now) ⟨e, fs, []⟩ l1) id =
        List.foldl (detector_process now) ⟨e, fs, []⟩ l1 :=
      detector_process_self_empty now _ id content (p1.trans hf) he
    rw [hstep]
    obtain ⟨r1, r2, r3, r4⟩ := detector_fold_other now l2
      (List.foldl (detector_process now) ⟨e, fs, []⟩ l1) id hn2
    refine ⟨r1.trans (p1.trans hf), r2.trans (p2.trans ha), ?_⟩
    rw [r4, p4]
    simp
  · unfold daemon_tick
    rw [hsplit, List.foldl_append, List.foldl_cons]
    obtain ⟨p1, p2, p3, p4⟩ := daemon_fold_other now l1 ⟨e, fs, []⟩ id hn1
    obtain ⟨q1, q2, q3⟩ := daemon_process_self now
      (List.foldl (daemon_process now) ⟨e, fs, []⟩ l1) id content tk
      (p1.trans hf) (p2.trans ha)
    obtain ⟨r1, r2, r3, r4⟩ := daemon_fold_other now l2
      (daemon_process now (List.foldl (daemon_process now) ⟨e, fs, []⟩ l1) id)
      id hn2
    refine ⟨r1.trans q1, r3.trans q2, ?_⟩
    rw [r4, q3, p4]
    simp

/-- Witness for C4 at the concrete active state with a non-empty
artifact. -/
theorem watcher_artifact_contract_witness :
    (detector_tick oneActiveState doneArtifactFs 200).fs.lookup "CSLOG-16" =
      none ∧
    List.filter (fun c => c.1 = "CSLOG-16")
        (detector_tick oneActiveState doneArtifactFs 200).completeCalls =
      [("CSLOG-16", "done")] := by
  have h := watcher_artifact_contract oneActiveState doneArtifactFs 200
    "CSLOG-16" activeTicket " done\n" (by decide) rfl rfl
  have h1 := h.1 (by decide)
  refine ⟨h1.1, ?_⟩
  rw [h1.2.2.2]
  decide

/-- Counterexample for C4 as stated: the daemon's completion loop, on an
artifact whose text strips to empty, calls complete with the empty
summary, moves the ticket to Completed, and deletes the artifact,
instead of logging and leaving it. -/
theorem daemon_tick_completes_empty_artifact :
    (daemon_tick oneActiveState emptyArtifactFs 200).completeCalls =
      [("CSLOG-16", "")] ∧
    (daemon_tick oneActiveState emptyArtifactFs 200).fs.lookup "CSLOG-16" =
      none ∧
    inCompleted (daemon_tick oneActiveState emptyArtifactFs 200).engine
      "CSLOG-16" = true := by
  decide
